import Mathlib

/-!
Shallow embedding of `apps/telephony_app/main.py`: the `CustomTelephonyServer`
class with its `generate_prompt_preamble` greeting generator and the
`create_inbound_route` / `twilio_route` inbound-call adapter.

Python's `datetime.now()` is injected as an explicit `DateTime` value and
`random.choice` as an injected index (the spec itself directs that the clock
and the random choice be injectable capabilities); everything else is
translated directly from the source.
-/

namespace TelephonyApp

/-- The wall-clock value `datetime.now()` returns, restricted to the fields
the program reads: `.hour` and `strftime('%A, %B %d, %Y')` (which formats
year, month, day and the weekday computed from them). -/
structure DateTime where
  year : Nat
  month : Nat
  day : Nat
  hour : Nat
deriving DecidableEq

/-- Decimal digits of `n` (least fuel-bounded loop); embeds the decimal
rendering used by `strftime` for `%Y` and `%d`. -/
def decimalAux : Nat → Nat → List Char
  | 0, _ => []
  | fuel + 1, n =>
    if n = 0 then [] else decimalAux fuel (n / 10) ++ [Char.ofNat (48 + n % 10)]

/-- Decimal rendering of a natural number, as `str(n)` / `%Y` print it. -/
def natToDecimal (n : Nat) : String :=
  if n = 0 then "0" else String.mk (decimalAux (n + 1) n)

/-- Zero-padded two-digit day of month, as `strftime('%d')` prints it. -/
def pad2 (n : Nat) : String :=
  if n < 10 then "0" ++ natToDecimal n else natToDecimal n

/-- The month-name table of `strftime('%B')`. -/
def monthNames : List String :=
  ["January", "February", "March", "April", "May", "June", "July", "August",
    "September", "October", "November", "December"]

/-- Full month name, as `strftime('%B')` prints it for months 1–12. -/
def monthName (m : Nat) : String := monthNames.getD (m - 1) ""

/-- The weekday-name table of `strftime('%A')`, indexed with 0 = Sunday. -/
def weekdayNames : List String :=
  ["Sunday", "Monday", "Tuesday", "Wednesday", "Thursday", "Friday", "Saturday"]

/-- Full weekday name for a weekday index with 0 = Sunday, as
`strftime('%A')` prints it. -/
def weekdayName (w : Nat) : String := weekdayNames.getD w ""

/-- Month offsets of Sakamoto's weekday algorithm. -/
def sakamotoT : List Nat := [0, 3, 2, 5, 0, 3, 5, 1, 4, 6, 2, 4]

/-- Weekday (0 = Sunday) of a Gregorian date, as `datetime` computes it for
`%A`; Sakamoto's method. -/
def dayOfWeek (y m d : Nat) : Nat :=
  let y := if m < 3 then y - 1 else y
  (y + y / 4 - y / 100 + y / 400 + sakamotoT.getD (m - 1) 0 + d) % 7

/-- `date_now.strftime('%A, %B %d, %Y')`. -/
def strftimeFull (dt : DateTime) : String :=
  weekdayName (dayOfWeek dt.year dt.month dt.day) ++ ", " ++
    monthName dt.month ++ " " ++ pad2 dt.day ++ ", " ++ natToDecimal dt.year

/-- The fixed color list of `generate_prompt_preamble`. -/
def colors : List String := ["red", "blue", "green", "yellow", "purple"]

/-- `color = random.choice([...])` when no color is given, the given color
otherwise. The random draw is injected as an index `rng`; `random.choice`
picks an element of the (nonempty) list. -/
def pick_color (color : Option String) (rng : Nat) : String :=
  match color with
  | none => colors.getD (rng % colors.length) ""
  | some c => c

/-- `time_of_day = "morning" if hour < 12 else "afternoon"`. -/
def time_of_day_of (hour : Nat) : String :=
  if hour < 12 then "morning" else "afternoon"

/-- `greeting = f"Hi, thanks for calling from {twilio_from}. " if twilio_from
else "Hi, "` — Python truthiness: `None` and the empty string both fall to
the generic opener. -/
def greeting_of (twilio_from : Option String) : String :=
  match twilio_from with
  | some f => if f = "" then "Hi, " else "Hi, thanks for calling from " ++ f ++ ". "
  | none => "Hi, "

/-- `CustomTelephonyServer.generate_prompt_preamble`, with the clock and the
random draw injected. The returned f-string puts one further space between
`greeting` and `It's`. -/
def generate_prompt_preamble (color : Option String) (twilio_from : Option String)
    (now : DateTime) (rng : Nat) : String :=
  greeting_of twilio_from ++ " It's currently " ++ time_of_day_of now.hour ++ " on " ++
    strftimeFull now ++ ". Let me tell you facts and interesting tidbits about " ++
    pick_color color rng ++ "."

/-- `TwilioConfig(account_sid=..., auth_token=...)`. -/
structure TwilioConfig where
  account_sid : String
  auth_token : String
deriving DecidableEq

/-- `BaseMessage(text=...)`. -/
structure BaseMessage where
  text : String
deriving DecidableEq

/-- Opaque transcription settings; passed through unmodified. -/
structure TranscriberConfig where
  tag : Nat
deriving DecidableEq

/-- Opaque speech-synthesis settings; passed through unmodified. -/
structure SynthesizerConfig where
  tag : Nat
deriving DecidableEq

/-- `ChatGPTAgentConfig`: the fields the program reads or writes. -/
structure AgentConfig where
  initial_message : BaseMessage
  prompt_preamble : String
  generate_responses : Bool
deriving DecidableEq

/-- `TwilioInboundCallConfig`: the inbound-call configuration captured by the
route closure at registration time. -/
structure TwilioInboundCallConfig where
  url : String
  agent_config : AgentConfig
  transcriber_config : Option TranscriberConfig
  synthesizer_config : Option SynthesizerConfig
  twilio_config : TwilioConfig
deriving DecidableEq

/-- `TwilioCallConfig.default_transcriber_config()`. -/
def default_transcriber_config : TranscriberConfig := ⟨0⟩

/-- `TwilioCallConfig.default_synthesizer_config()`. -/
def default_synthesizer_config : SynthesizerConfig := ⟨0⟩

/-- `TwilioCallConfig(...)`: the per-call configuration that is persisted. -/
structure TwilioCallConfig where
  transcriber_config : TranscriberConfig
  agent_config : AgentConfig
  synthesizer_config : SynthesizerConfig
  twilio_config : TwilioConfig
  twilio_sid : String
  from_phone : String
  to_phone : String
deriving DecidableEq

/-- One `config_manager.save_config(conversation_id, call_config)` call. -/
structure SaveOp where
  conversation_id : String
  config : TwilioCallConfig
deriving DecidableEq

/-- `templater.get_connection_twiml(base_url=..., call_id=...)`: the TwiML
response, reduced to the data it references. -/
structure TwimlResponse where
  base_url : String
  call_id : String
deriving DecidableEq

/-- What one `twilio_route` invocation produces: the response, the state of
the captured `inbound_call_config` after the invocation, and the list of
config-store writes it performed. -/
structure RouteOutcome where
  response : TwimlResponse
  inbound_call_config : TwilioInboundCallConfig
  saves : List SaveOp
deriving DecidableEq

/-- `twilio_route` inside `CustomTelephonyServer.create_inbound_route`.
State that the Python handler reaches through `self` or its closure is an
explicit argument (`base_url`, the captured `inbound_call_config`); the
fresh `create_conversation_id()` value, the clock and the random draw are
injected. The assignment
`inbound_call_config.agent_config.initial_message = BaseMessage(...)`
mutates the captured object, so the outcome carries its new state. -/
def twilio_route (base_url : String) (inbound_call_config : TwilioInboundCallConfig)
    (twilio_config : TwilioConfig) (twilio_sid twilio_from twilio_to : String)
    (now : DateTime) (rng : Nat) (conversation_id : String) : RouteOutcome :=
  let dynamic_initial_message := generate_prompt_preamble none (some twilio_from) now rng
  let icc : TwilioInboundCallConfig :=
    { inbound_call_config with
        agent_config :=
          { inbound_call_config.agent_config with
              initial_message := ⟨dynamic_initial_message⟩ } }
  let call_config : TwilioCallConfig :=
    { transcriber_config := icc.transcriber_config.getD default_transcriber_config
      agent_config := icc.agent_config
      synthesizer_config := icc.synthesizer_config.getD default_synthesizer_config
      twilio_config := twilio_config
      twilio_sid := twilio_sid
      from_phone := twilio_from
      to_phone := twilio_to }
  { response := ⟨base_url, conversation_id⟩
    inbound_call_config := icc
    saves := [⟨conversation_id, call_config⟩] }

/-- One webhook invocation of the registered route. The route is registered
at `/inbound_call/{color}` but `twilio_route`'s signature declares no color
parameter, so the path value is never passed to the handler: the embedding
takes it as `color_path` and hands `twilio_route` everything except it. -/
def handle_inbound_webhook (base_url : String)
    (inbound_call_config : TwilioInboundCallConfig) (twilio_config : TwilioConfig)
    (color_path : String) (twilio_sid twilio_from twilio_to : String)
    (now : DateTime) (rng : Nat) (conversation_id : String) : RouteOutcome :=
  twilio_route base_url inbound_call_config twilio_config twilio_sid twilio_from
    twilio_to now rng conversation_id

/-- `AbstractInboundCallConfig`: either the recognized
`TwilioInboundCallConfig` subclass or some other subclass, identified by the
name `type(...)` would print. -/
inductive AbstractInboundCallConfig where
  | twilio (cfg : TwilioInboundCallConfig)
  | unknown (type_name : String)

/-- `CustomTelephonyServer.create_inbound_route`: for a
`TwilioInboundCallConfig` it returns the handler with the config's
`twilio_config` partially applied; otherwise it raises
`ValueError(f"Unknown inbound call config type {type(...)}")`. -/
def create_inbound_route (base_url : String)
    (inbound_call_config : AbstractInboundCallConfig) :
    Except String
      (String → String → String → String → DateTime → Nat → String → RouteOutcome) :=
  match inbound_call_config with
  | .twilio cfg =>
      .ok (fun color_path sid f t now rng cid =>
        handle_inbound_webhook base_url cfg cfg.twilio_config color_path sid f t
          now rng cid)
  | .unknown type_name =>
      .error ("Unknown inbound call config type " ++ type_name)

/-- The `TwilioInboundCallConfig` the source registers at startup (the
environment-sourced credential strings are arbitrary here). -/
def registered_inbound_call_config : TwilioInboundCallConfig :=
  { url := "/inbound_call/\x7bcolor\x7d"
    agent_config :=
      { initial_message := ⟨"Placeholder, will be replaced dynamically"⟩
        prompt_preamble := "Have a pleasant conversation about the color randomly choosed"
        generate_responses := true }
    transcriber_config := none
    synthesizer_config := none
    twilio_config := ⟨"AC0", "tok0"⟩ }

/-- `sub` occurs in `s` as a contiguous substring. -/
def containsStr (s sub : String) : Prop := sub.data <:+: s.data

instance (s sub : String) : Decidable (containsStr s sub) :=
  List.decidableInfix sub.data s.data

/-! Helper lemmas. -/

lemma containsStr_of_eq_append (s x sub y : String) (h : s = x ++ sub ++ y) :
    containsStr s sub := by
  subst h
  exact ⟨x.data, y.data, by simp [String.data_append]⟩

lemma contains_eq_false_of_not_mem (l : List Char) (a : Char) (h : a ∉ l) :
    l.contains a = false := by
  cases hc : l.contains a
  · rfl
  · exact absurd (List.elem_iff.mp hc) h

lemma plus_not_mem_decimalAux (fuel n : Nat) : Char.ofNat 43 ∉ decimalAux fuel n := by
  induction fuel generalizing n with
  | zero => simp [decimalAux]
  | succ fuel ih =>
    unfold decimalAux
    split
    · simp
    · intro hmem
      rcases List.mem_append.mp hmem with h | h
      · exact ih (n / 10) h
      · have h10 : n % 10 < 10 := Nat.mod_lt _ (by norm_num)
        have hk : ∀ k, k < 10 → Char.ofNat (48 + k) ≠ Char.ofNat 43 := by decide
        rcases List.mem_singleton.mp h with h
        exact hk (n % 10) h10 h.symm

lemma plus_not_mem_natToDecimal (n : Nat) : Char.ofNat 43 ∉ (natToDecimal n).data := by
  unfold natToDecimal
  split
  · decide
  · exact plus_not_mem_decimalAux (n + 1) n

lemma plus_not_mem_pad2 (n : Nat) : Char.ofNat 43 ∉ (pad2 n).data := by
  unfold pad2
  split
  · intro hmem
    exact plus_not_mem_natToDecimal n (by simpa [String.data_append] using hmem)
  · exact plus_not_mem_natToDecimal n

lemma getD_default_or_mem (l : List String) (n : Nat) (d : String) :
    l.getD n d = d ∨ l.getD n d ∈ l := by
  rcases h : l[n]? with _ | s
  · left
    simp [List.getD, h]
  · right
    obtain ⟨hlt, hget⟩ := List.getElem?_eq_some.mp h
    have hs : s ∈ l := hget ▸ List.getElem_mem hlt
    simpa [List.getD, h] using hs

lemma plus_not_mem_monthName (m : Nat) : Char.ofNat 43 ∉ (monthName m).data := by
  unfold monthName
  rcases getD_default_or_mem monthNames (m - 1) "" with h | h
  · rw [h]
    decide
  · have hall : ∀ s ∈ monthNames, Char.ofNat 43 ∉ s.data := by decide
    exact hall _ h

lemma plus_not_mem_weekdayName (w : Nat) : Char.ofNat 43 ∉ (weekdayName w).data := by
  unfold weekdayName
  rcases getD_default_or_mem weekdayNames w "" with h | h
  · rw [h]
    decide
  · have hall : ∀ s ∈ weekdayNames, Char.ofNat 43 ∉ s.data := by decide
    exact hall _ h

lemma plus_not_mem_time_of_day (h : Nat) : Char.ofNat 43 ∉ (time_of_day_of h).data := by
  unfold time_of_day_of
  split
  · decide
  · decide

lemma plus_not_mem_strftimeFull (dt : DateTime) :
    Char.ofNat 43 ∉ (strftimeFull dt).data := by
  unfold strftimeFull
  intro hmem
  simp only [String.data_append, List.mem_append] at hmem
  casesm* _ ∨ _ <;>
    first
      | exact plus_not_mem_weekdayName _ (by assumption)
      | exact plus_not_mem_monthName _ (by assumption)
      | exact plus_not_mem_pad2 _ (by assumption)
      | exact plus_not_mem_natToDecimal _ (by assumption)
      | exact absurd (by assumption) (by decide)

lemma pick_color_none_mem (rng : Nat) : pick_color none rng ∈ colors := by
  show colors.getD (rng % 5) "" ∈ colors
  have h5 : rng % 5 < 5 := Nat.mod_lt _ (by norm_num)
  have h : rng % 5 = 0 ∨ rng % 5 = 1 ∨ rng % 5 = 2 ∨ rng % 5 = 3 ∨ rng % 5 = 4 := by
    omega
  rcases h with h | h | h | h | h <;> rw [h] <;> decide

lemma plus_not_mem_pick_color_none (rng : Nat) :
    Char.ofNat 43 ∉ (pick_color none rng).data := by
  have hmem := pick_color_none_mem rng
  have hall : ∀ s ∈ colors, Char.ofNat 43 ∉ s.data := by decide
  exact hall _ hmem

/-! The claims. -/

/-- C1, counterexample: the route handler is not stateless — handling one
request changes the `inbound_call_config` object captured at
route-registration time (its agent config's initial message is overwritten
with the generated greeting, here no longer the registered placeholder). -/
theorem twilio_route_mutates_captured_config :
    (twilio_route "example.com" registered_inbound_call_config
        registered_inbound_call_config.twilio_config "CA1" "+15551234567"
        "+15557654321" ⟨2024, 3, 4, 9⟩ 0 "conv1").inbound_call_config ≠
      registered_inbound_call_config := by
  decide

/-- C1 (amended): each invocation performs the single config-store write and
additionally mutates the shared `inbound_call_config` captured at
registration, overwriting its agent config's initial message with the newly
generated greeting; every other field of the captured object, and all other
shared state, is left unchanged. -/
theorem twilio_route_frame_condition (base_url : String)
    (icc : TwilioInboundCallConfig) (tc : TwilioConfig) (sid f t : String)
    (now : DateTime) (rng : Nat) (cid : String) :
    (twilio_route base_url icc tc sid f t now rng cid).inbound_call_config =
      { icc with
          agent_config :=
            { icc.agent_config with
                initial_message := ⟨generate_prompt_preamble none (some f) now rng⟩ } } ∧
    (twilio_route base_url icc tc sid f t now rng cid).saves.length = 1 :=
  ⟨rfl, rfl⟩

/-- C2, counterexample: with the caller `+15551234567`, the clock fixed at
2024-03-04T09:00:00 and the random draw pinned, the greeting does not start
with the claimed prefix — the code emits two spaces between the caller
acknowledgement and `It's`, so the single-spaced prefix never matches. -/
theorem example_greeting_single_space_fails :
    ¬ (("Hi, thanks for calling from +15551234567. It's currently morning on Monday, March 04, 2024. Let me tell you facts and interesting tidbits about ").data <+:
        (generate_prompt_preamble none (some "+15551234567") ⟨2024, 3, 4, 9⟩ 0).data) := by
  decide

/-- C2 (amended): at caller `+15551234567`, no topic, and the clock fixed at
2024-03-04T09:00:00, the greeting starts with exactly
`Hi, thanks for calling from +15551234567.  It's currently morning on
Monday, March 04, 2024. Let me tell you facts and interesting tidbits
about ` — with two spaces after the caller acknowledgement — followed by
one of the five colors and a closing period. -/
theorem example_greeting_format (rng : Nat) :
    ∃ c, c ∈ colors ∧
      generate_prompt_preamble none (some "+15551234567") ⟨2024, 3, 4, 9⟩ rng =
        "Hi, thanks for calling from +15551234567.  It's currently morning on Monday, March 04, 2024. Let me tell you facts and interesting tidbits about " ++
          (c ++ ".") :=
  ⟨pick_color none rng, pick_color_none_mem rng, rfl⟩

/-- C3, counterexample: a webhook invocation whose topic-color path
parameter is `octarine` produces a greeting that does not contain
`octarine` — the route handler never passes the path parameter on, so a
supplied topic is not used verbatim. -/
theorem webhook_ignores_path_color :
    ¬ containsStr
        ((handle_inbound_webhook "example.com" registered_inbound_call_config
              registered_inbound_call_config.twilio_config "octarine" "CA1"
              "+15551234567" "+15557654321" ⟨2024, 3, 4, 9⟩ 0
              "conv1").inbound_call_config.agent_config.initial_message.text)
        "octarine" := by
  set_option maxRecDepth 40000 in decide

/-- C3 (amended): the webhook handler ignores the topic-color path
parameter — the outcome is identical for any two path values, and the
greeting it embeds is always the no-topic generation, whose topic token is
one of the five fixed colors; only when a color is handed directly to the
generator is it used verbatim. -/
theorem webhook_topic_is_random_color (base_url : String)
    (icc : TwilioInboundCallConfig) (tc : TwilioConfig)
    (cp1 cp2 sid f t : String) (now : DateTime) (rng : Nat) (cid : String) :
    handle_inbound_webhook base_url icc tc cp1 sid f t now rng cid =
      handle_inbound_webhook base_url icc tc cp2 sid f t now rng cid ∧
    (handle_inbound_webhook base_url icc tc cp1 sid f t now rng
          cid).inbound_call_config.agent_config.initial_message.text =
      generate_prompt_preamble none (some f) now rng ∧
    pick_color none rng ∈ colors ∧
    ∀ c : String, pick_color (some c) rng = c :=
  ⟨rfl, rfl, pick_color_none_mem rng, fun _ => rfl⟩

/-- C4: whenever a caller number is supplied, the generated greeting
contains that exact number as a substring. -/
theorem greeting_contains_caller_number (color : Option String) (f : String)
    (now : DateTime) (rng : Nat) :
    containsStr (generate_prompt_preamble color (some f) now rng) f := by
  by_cases hf : f = ""
  · subst hf
    exact List.nil_infix
  · have hgreet : greeting_of (some f) = "Hi, thanks for calling from " ++ f ++ ". " := by
      simp [greeting_of, hf]
    apply containsStr_of_eq_append _ "Hi, thanks for calling from " f
      (". " ++ (" It's currently " ++ (time_of_day_of now.hour ++ (" on " ++
        (strftimeFull now ++
          (". Let me tell you facts and interesting tidbits about " ++
            (pick_color color rng ++ ".")))))))
    unfold generate_prompt_preamble
    rw [hgreet]
    simp only [String.append_assoc]

/-- C5: without a caller number the greeting uses the generic opener
`Hi, ` and contains no phone number: in the inbound webhook's no-topic
case no character of the greeting is `+`, the character every E.164 caller
number starts with. -/
theorem greeting_without_caller_generic (color : Option String)
    (now : DateTime) (rng : Nat) :
    (∃ rest, generate_prompt_preamble color none now rng = "Hi, " ++ rest) ∧
    (generate_prompt_preamble none none now rng).data.contains (Char.ofNat 43) =
      false := by
  constructor
  · refine ⟨" It's currently " ++ (time_of_day_of now.hour ++ (" on " ++
      (strftimeFull now ++
        (". Let me tell you facts and interesting tidbits about " ++
          (pick_color color rng ++ "."))))), ?_⟩
    show greeting_of none ++ " It's currently " ++ time_of_day_of now.hour ++ " on " ++
        strftimeFull now ++ ". Let me tell you facts and interesting tidbits about " ++
        pick_color color rng ++ "." = _
    rw [show greeting_of none = "Hi, " from rfl]
    simp only [String.append_assoc]
  · apply contains_eq_false_of_not_mem
    intro hmem
    simp only [generate_prompt_preamble, String.data_append, List.mem_append] at hmem
    casesm* _ ∨ _ <;>
      first
        | exact plus_not_mem_strftimeFull now (by assumption)
        | exact plus_not_mem_time_of_day now.hour (by assumption)
        | exact plus_not_mem_pick_color_none rng (by assumption)
        | exact absurd (by assumption) (by decide)

/-- C6: the time-of-day token of every greeting is `morning` exactly when
the injected clock's hour is strictly below 12 and `afternoon` otherwise,
and the greeting places that token in its time-of-day slot. -/
theorem greeting_time_of_day_boundary (color twilio_from : Option String)
    (now : DateTime) (rng : Nat) :
    (time_of_day_of now.hour = "morning" ↔ now.hour < 12) ∧
    (time_of_day_of now.hour = "afternoon" ↔ 12 ≤ now.hour) ∧
    generate_prompt_preamble color twilio_from now rng =
      greeting_of twilio_from ++ " It's currently " ++ time_of_day_of now.hour ++
        " on " ++ strftimeFull now ++
        ". Let me tell you facts and interesting tidbits about " ++
        pick_color color rng ++ "." := by
  refine ⟨?_, ?_, rfl⟩ <;> unfold time_of_day_of <;> by_cases h : now.hour < 12 <;>
    simp [h] <;> omega

/-- C7: `create_inbound_route` returns a route handler exactly when the
inbound call configuration is the recognized Twilio type, and fails with
the unsupported-configuration-type error on any other type. -/
theorem create_inbound_route_type_check (base_url : String)
    (icc : AbstractInboundCallConfig) :
    ((create_inbound_route base_url icc).isOk = true ↔
      ∃ cfg, icc = AbstractInboundCallConfig.twilio cfg) ∧
    ∀ type_name, create_inbound_route base_url
        (AbstractInboundCallConfig.unknown type_name) =
      Except.error ("Unknown inbound call config type " ++ type_name) := by
  constructor
  · cases icc with
    | twilio cfg => exact ⟨fun _ => ⟨cfg, rfl⟩, fun _ => rfl⟩
    | unknown t =>
      constructor
      · intro h
        simp [create_inbound_route, Except.isOk, Except.toBool] at h
      · rintro ⟨cfg, h⟩
        exact AbstractInboundCallConfig.noConfusion h
  · intro t
    rfl

/-- C8: every inbound webhook invocation performs exactly one config-store
save, under the freshly generated conversation identifier, and the saved
configuration embeds the greeting generated at creation time for that
call. -/
theorem one_save_per_invocation (base_url : String)
    (icc : TwilioInboundCallConfig) (tc : TwilioConfig) (sid f t : String)
    (now : DateTime) (rng : Nat) (cid : String) :
    ∃ op : SaveOp,
      (twilio_route base_url icc tc sid f t now rng cid).saves = [op] ∧
      op.conversation_id = cid ∧
      op.config.agent_config.initial_message.text =
        generate_prompt_preamble none (some f) now rng :=
  ⟨_, rfl, rfl, rfl⟩

/-- C9: the greeting generator is a total pure function — for every
combination of optional topic, optional caller number, clock value and
random draw it returns a (nonempty) string. -/
theorem generate_prompt_preamble_total (color twilio_from : Option String)
    (now : DateTime) (rng : Nat) :
    0 < (generate_prompt_preamble color twilio_from now rng).length := by
  have h : generate_prompt_preamble color twilio_from now rng =
      (greeting_of twilio_from ++ " It's currently " ++ time_of_day_of now.hour ++
        " on " ++ strftimeFull now ++
        ". Let me tell you facts and interesting tidbits about " ++
        pick_color color rng) ++ "." := rfl
  have h1 : ("." : String).length = 1 := rfl
  rw [h, String.length_append, h1]
  omega

/-- C10: a supplied-but-empty caller number behaves exactly like an absent
one — Python truthiness — so the greeting falls back to the generic opener
`Hi, ` and the acknowledgement prefix is produced only for non-empty
caller numbers. -/
theorem empty_caller_number_generic_opener (color : Option String)
    (now : DateTime) (rng : Nat) :
    generate_prompt_preamble color (some "") now rng =
      generate_prompt_preamble color none now rng ∧
    (∃ rest, generate_prompt_preamble color (some "") now rng = "Hi, " ++ rest) ∧
    ∀ f : String, greeting_of (some f) =
      if f = "" then "Hi, "
      else "Hi, thanks for calling from " ++ f ++ ". " := by
  refine ⟨rfl, ⟨" It's currently " ++ (time_of_day_of now.hour ++ (" on " ++
    (strftimeFull now ++
      (". Let me tell you facts and interesting tidbits about " ++
        (pick_color color rng ++ "."))))), ?_⟩, fun f => rfl⟩
  show greeting_of (some "") ++ " It's currently " ++ time_of_day_of now.hour ++ " on " ++
      strftimeFull now ++ ". Let me tell you facts and interesting tidbits about " ++
      pick_color color rng ++ "." = _
  rw [show greeting_of (some "") = "Hi, " from rfl]
  simp only [String.append_assoc]

end TelephonyApp
